import Mathlib

/-!
Verification of the task-queue consumer of the armcobot repository
(`src/customclient.py`).  The definitions below are a shallow embedding of
`CustomClient.queue_consumer` and its four task handlers
(`_handle_create_task`, `_handle_update_task`, `_handle_delete_task`,
`_handle_terminate_task`), together with the entity rows they touch.

External collaborators are modelled as data:
  - the Discord messaging transport (`resolveChannel`, `fetchMessage`,
    `fetchUser`, send/edit/delete) becomes the `Env` record: a channel or a
    message exists iff it is listed there; `fetchMessage` follows the
    contract given in the specification, returning a NotFound sentinel
    (here: a `contains` test) rather than raising, and code that then calls
    a method on that sentinel raises, exactly as calling a method on a
    non-message object does;
  - the persistence layer (SQLAlchemy session) becomes the `DB` record of
    row lists; `query(...).filter(...).first()` becomes `List.find?`;
    `session.merge` of a detached entity returns the identity-mapped
    instance for the same primary key, modelled as the entity itself, and
    `session.merge(None)` raises `UnmappedInstanceError`;
  - side effects (messages sent or edited, direct messages, `expunge`,
    log lines, the `close()` call) are recorded in an `Effect` trace.

Machine integers do not overflow here (Python ints are unbounded), so task
kinds and fail counts are plain `Int` and identifiers are `Nat`.
-/

namespace ArmcoBot

/-- A player row (`models.Player`): primary key and the Discord account id
used by `fetch_user`. Other columns are only interpolated into opaque
template strings and are not modelled field by field. -/
structure Player where
  id : Nat
  discord_id : Nat
deriving Repr, BEq, DecidableEq

/-- A unit row (`models.Unit`): primary key, owning player, and the fields
read by `generate_unit_message` (`name`, `unit_type`, `status.name`,
`callsign`). -/
structure Unit where
  id : Nat
  player_id : Nat
  name : String
  unit_type : String
  status : String
  callsign : String
deriving Repr, BEq, DecidableEq

/-- An upgrade row (`models.PlayerUpgrade`): primary key, owning unit, and
the `name` read by `generate_unit_message`. -/
structure PlayerUpgrade where
  id : Nat
  unit_id : Nat
  name : String
deriving Repr, BEq, DecidableEq

/-- A dossier tracking row (`models.Dossier`): links a player to the Discord
message presenting their profile.  The surrogate primary key is not modelled
separately: rows created by the handler reuse the generated message id as
key, and the key is only used to re-query a detached copy. -/
structure Dossier where
  id : Nat
  player_id : Nat
  message_id : Nat
deriving Repr, BEq, DecidableEq

/-- A statistics tracking row (`models.Statistic`), same shape as
`Dossier`. -/
structure Statistic where
  id : Nat
  player_id : Nat
  message_id : Nat
deriving Repr, BEq, DecidableEq

/-- A medal row (`models.Medals`): the player it was awarded to and its
name. -/
structure Medals where
  player_id : Nat
  name : String
deriving Repr, BEq, DecidableEq

/-- A domain entity instance, as carried (detached) inside a task or
returned by a session query.  The Python code discriminates these with
`isinstance` tests. -/
inductive Entity where
  | player (p : Player)
  | unit (u : Unit)
  | upgrade (g : PlayerUpgrade)
  | dossier (d : Dossier)
  | statistic (s : Statistic)
deriving Repr, BEq, DecidableEq

/-- The database visible through the long-lived session: one list of rows
per mapped class. -/
structure DB where
  players : List Player
  units : List Unit
  upgrades : List PlayerUpgrade
  dossiers : List Dossier
  statistics : List Statistic
  medals : List Medals
deriving Repr, BEq, DecidableEq

/-- `session.query(task[1].__class__).filter(cls.id == task[1].id).first()`:
re-fetch a detached entity by primary key; the class of the result is the
class of the argument. -/
def requery (db : DB) (e : Entity) : Option Entity :=
  match e with
  | Entity.player p => (db.players.find? (fun q => q.id == p.id)).map Entity.player
  | Entity.unit u => (db.units.find? (fun q => q.id == u.id)).map Entity.unit
  | Entity.upgrade g => (db.upgrades.find? (fun q => q.id == g.id)).map Entity.upgrade
  | Entity.dossier d => (db.dossiers.find? (fun q => q.id == d.id)).map Entity.dossier
  | Entity.statistic s => (db.statistics.find? (fun q => q.id == s.id)).map Entity.statistic

/-- The two optional channel ids read from `self.config`
(`dossier_channel_id`, `statistics_channel_id`).  `config.get(key)` is a
`match` on the option; `config[key]` on a missing key raises `KeyError`.
Channel ids are Discord snowflakes and hence never the falsy `0`. -/
structure Config where
  dossier_channel_id : Option Nat
  statistics_channel_id : Option Nat
deriving Repr, BEq, DecidableEq

/-- The messaging collaborator and static configuration: a channel resolves
iff its id is in `channels` (`self.get_channel`), a message exists iff its
`(channel, message)` pair is in `messages` (`fetch_message`, per the
specification returning Message or NotFound), a user is fetchable iff its id
is in `users` (`fetch_user`), and `medal_emotes` is the persisted
`MEDAL_EMOTES` mapping. -/
structure Env where
  config : Config
  channels : List Nat
  messages : List (Nat × Nat)
  users : List Nat
  medal_emotes : List (String × String)
deriving Repr, BEq, DecidableEq

/-- `mention = await self.fetch_user(id); mention = mention.mention if
mention else ""`. -/
def mentionOf (env : Env) (discordId : Nat) : String :=
  if env.users.contains discordId then "<@" ++ toString discordId ++ ">" else ""

/-- Rendered message contents.  The `templates` module is not under `src/`;
modelled from the spec: a template application is kept opaque, recording the
format arguments the handler passes (`templates.Dossier.format(mention=...,
player=..., medals=...)` and `templates.Statistics_Player.format(mention=...,
player=..., units=...)`), with the player argument represented by its key. -/
inductive Content where
  | dossierMsg (mention : String) (playerId : Nat) (medals : String)
  | statsPlayerMsg (mention : String) (playerId : Nat) (units : String)
deriving Repr, BEq, DecidableEq

/-- Log severities used by the consumer. -/
inductive LogLevel where
  | debug
  | warning
  | error
  | critical
deriving Repr, BEq, DecidableEq

/-- Observable side effects of the consumer, in program order. -/
inductive Effect where
  | log (lvl : LogLevel) (msg : String)
  | sendChannelMessage (channelId : Nat) (content : Content) (messageId : Nat)
  | editMessage (channelId : Nat) (messageId : Nat) (content : Content)
  | deleteMessage (channelId : Nat) (messageId : Nat)
  | sendDM (userId : Nat) (text : String)
  | expunge (e : Entity)
  | closeCalled
deriving Repr, BEq, DecidableEq

/-- Python exceptions that can escape the modelled code. -/
inductive Exn where
  | indexError
  | typeError
  | keyError
  | attributeError
  | unmappedInstanceError
deriving Repr, BEq, DecidableEq

/-- A Python value that can sit in a task tuple slot: `None`, an `int`, or
a detached entity instance. -/
inductive PyVal where
  | vnone
  | vint (n : Int)
  | vent (e : Entity)
deriving Repr, BEq, DecidableEq

/-- An item taken off `self.queue`: either some non-tuple object or a tuple
of Python values. -/
inductive QItem where
  | obj (v : PyVal)
  | tup (elems : List PyVal)
deriving Repr, BEq, DecidableEq

/-- `str(task[1])` as used for the rate-limit key.  Within one session,
`session.merge` returns the identity-mapped instance for a primary key, so
the default `str` of that object is stable per (class, key); modelled as
this tag. -/
def strKey : Entity → String
  | Entity.player p => "Player:" ++ toString p.id
  | Entity.unit u => "Unit:" ++ toString u.id
  | Entity.upgrade g => "PlayerUpgrade:" ++ toString g.id
  | Entity.dossier d => "Dossier:" ++ toString d.id
  | Entity.statistic s => "Statistic:" ++ toString s.id

/-- `self.medal_emotes[medal]` for a medal known to the mapping. -/
def lookupEmote (env : Env) (medal : String) : String :=
  match env.medal_emotes.find? (fun kv => kv.fst == medal) with
  | some kv => kv.snd
  | none => ""

/-- `rows = [known_medals_list[i:i+5] for i in range(0, len(...), 5)]`:
split a list into consecutive chunks of five. -/
def chunks5 (l : List String) : List (List String) :=
  if h : l = [] then []
  else l.take 5 :: chunks5 (l.drop 5)
termination_by l.length
decreasing_by
  simp only [List.length_drop]
  have := List.length_pos.mpr h
  omega

/-- The medal block computed in `_handle_create_task` for a player: medals
with a known emote are deduplicated (a Python set; iteration order modelled
as first occurrence), batched five per row and rendered as emotes, the rest
are listed by name. -/
def medalBlock (env : Env) (medalsRows : List Medals) : String :=
  let known_emotes := env.medal_emotes.map Prod.fst
  let known_medals :=
    ((medalsRows.filter (fun m => known_emotes.contains m.name)).map (fun m => m.name)).eraseDups
  let unknown_medals :=
    ((medalsRows.filter (fun m => !known_emotes.contains m.name)).map (fun m => m.name)).eraseDups
  let rows := chunks5 known_medals
  let unknown_text := String.intercalate "\n" unknown_medals
  String.intercalate "\n"
      (rows.map (fun row => String.intercalate " " (row.map (fun medal => lookupEmote env medal))))
    ++ "\n" ++ unknown_text

/-- `templates.Statistics_Unit.format(unit=..., upgrades=..., callsign=...)`.
Modelled from the spec: the `templates` module is not under `src/`, so the
rendering is an opaque record of the interpolated fields. -/
def Statistics_Unit_template (name unit_type status upgrades callsign : String) : String :=
  name ++ " | " ++ unit_type ++ " | " ++ status ++ " | " ++ upgrades ++ " | " ++ callsign

/-- `CustomClient.generate_unit_message`: one template line per unit of the
player, joined with newlines; each line carries the comma-joined upgrade
names and the quoted callsign (empty string when the callsign is falsy). -/
def generate_unit_message (db : DB) (player : Player) : String :=
  let units := db.units.filter (fun u => u.player_id == player.id)
  let unit_messages := units.map (fun u =>
    let upgrades := db.upgrades.filter (fun g => g.unit_id == u.id)
    let upgrade_list := String.intercalate ", " (upgrades.map (fun g => g.name))
    Statistics_Unit_template u.name u.unit_type u.status upgrade_list
      (if u.callsign != "" then "\"" ++ u.callsign ++ "\"" else ""))
  String.intercalate "\n" unit_messages

/-- Update an association list for `RollingCounterDict.set`: append the
timestamp to the entry of the key, creating the entry when absent. -/
def setEntries (key : String) (t : Nat) : List (String × List Nat) → List (String × List Nat)
  | [] => [(key, [t])]
  | kv :: rest =>
    if kv.fst == key then (kv.fst, kv.snd ++ [t]) :: rest else kv :: setEntries key t rest

/-- First entry of the key in an association list of timestamp lists. -/
def stampsOf (key : String) : List (String × List Nat) → List Nat
  | [] => []
  | kv :: rest => if kv.fst == key then kv.snd else stampsOf key rest

/-- Modelled from the spec: `RollingCounterDict` is defined in the
repository module `utils`, which is not under `src/`.  Per the
specification (section 4.6) it is a mapping from key to the recent
occurrence timestamps inside a fixed trailing window; the consumer
constructs it as `RollingCounterDict(30)`.  `set` records an occurrence at
the current time, `get` counts the occurrences still inside the window
(an occurrence expires once the window has fully elapsed).  The ambient
clock of the Python object is passed explicitly as `t`. -/
structure RollingCounterDict where
  window : Nat
  entries : List (String × List Nat)
deriving Repr, BEq, DecidableEq

/-- `RollingCounterDict.set(key)`: record an occurrence at time `t`. -/
def RollingCounterDict.set (rc : RollingCounterDict) (key : String) (t : Nat) :
    RollingCounterDict :=
  { rc with entries := setEntries key t rc.entries }

/-- The timestamps currently stored for a key. -/
def RollingCounterDict.stamps (rc : RollingCounterDict) (key : String) : List Nat :=
  stampsOf key rc.entries

/-- `RollingCounterDict.get(key)` at time `t`: the number of recorded
occurrences whose window has not yet elapsed, i.e. with `t < t0 + window`. -/
def RollingCounterDict.get (rc : RollingCounterDict) (key : String) (t : Nat) : Nat :=
  ((rc.stamps key).filter (fun t0 => t < t0 + rc.window)).length

/-- Result of one handler call: the Python return value (`None` is falsy,
the terminate handler returns `True`) or the exception it raised. -/
inductive HResult where
  | ok (b : Bool)
  | err (e : Exn)
deriving Repr, BEq, DecidableEq

/-- Full outcome of a handler call: result, database after the call, side
effect trace in program order (partial when an exception was raised), tasks
pushed with `put_nowait` in order, and the fresh-identifier counter used for
ids of newly sent messages. -/
structure HOut where
  result : HResult
  db : DB
  effects : List Effect
  enq : List QItem
  fresh : Nat
deriving Repr, BEq, DecidableEq

/-- Control flow out of one section of a handler body: fall through to the
next section, `return` from the whole handler, or raise. -/
inductive SecFlow where
  | proceed
  | earlyReturn
  | raised (e : Exn)
deriving Repr, BEq, DecidableEq

/-- Outcome of one handler section: flow, database, effects, enqueues and
fresh counter after the section ran. -/
structure SecOut where
  flow : SecFlow
  db : DB
  effects : List Effect
  enq : List QItem
  fresh : Nat
deriving Repr, BEq, DecidableEq

/-- The dossier part of `_handle_create_task` for a `Player` instance
(`src/customclient.py` lines 221-254).  When a dossier channel is
configured: compute the medal block and mention, decide `create_dossier` by
checking for an existing `Dossier` row whose tracked message still exists,
drop the task on a falsy player id, and otherwise send the dossier message
and insert the tracking row.  `self.get_channel(...)` being unresolvable at
the send site raises (`.send` on `None`). -/
def createDossierSection (env : Env) (db : DB) (player : Player) (fresh : Nat) : SecOut :=
  match env.config.dossier_channel_id with
  | none => { flow := SecFlow.proceed, db := db, effects := [], enq := [], fresh := fresh }
  | some dch =>
    let medal_block := medalBlock env (db.medals.filter (fun m => m.player_id == player.id))
    let mention := mentionOf env player.discord_id
    let cd : Bool × List Effect :=
      match db.dossiers.find? (fun d => d.player_id == player.id) with
      | some existing_dossier =>
        if env.channels.contains dch then
          if env.messages.contains (dch, existing_dossier.message_id) then
            (false, [Effect.log LogLevel.debug "Dossier message already exists, skipping creation"])
          else (true, [])
        else (true, [])
      | none => (true, [])
    if player.id == 0 then
      { flow := SecFlow.earlyReturn, db := db,
        effects := cd.snd ++ [Effect.log LogLevel.error "missing player id, skipping dossier creation"],
        enq := [], fresh := fresh }
    else if cd.fst then
      if env.channels.contains dch then
        { flow := SecFlow.proceed,
          db := { db with dossiers :=
            db.dossiers ++ [{ id := fresh, player_id := player.id, message_id := fresh }] },
          effects := cd.snd ++
            [Effect.sendChannelMessage dch (Content.dossierMsg mention player.id medal_block) fresh,
             Effect.log LogLevel.debug "Created dossier for player"],
          enq := [], fresh := fresh + 1 }
      else
        { flow := SecFlow.raised Exn.attributeError, db := db, effects := cd.snd,
          enq := [], fresh := fresh }
    else
      { flow := SecFlow.proceed, db := db, effects := cd.snd, enq := [], fresh := fresh }

/-- The statistics part of `_handle_create_task` for a `Player` instance
(`src/customclient.py` lines 255-277).  When a statistics channel is
configured: render the unit roster, `return` early when an existing
`Statistic` row still has its message, drop on a falsy player id, and
otherwise send the statistics message and insert the tracking row. -/
def createStatisticsSection (env : Env) (db : DB) (player : Player) (fresh : Nat) : SecOut :=
  match env.config.statistics_channel_id with
  | none => { flow := SecFlow.proceed, db := db, effects := [], enq := [], fresh := fresh }
  | some sch =>
    let unit_message := generate_unit_message db player
    let mention := mentionOf env player.discord_id
    let earlyStop : Bool :=
      match db.statistics.find? (fun s => s.player_id == player.id) with
      | some existing_statistics =>
        env.channels.contains sch && env.messages.contains (sch, existing_statistics.message_id)
      | none => false
    match earlyStop with
    | true =>
      { flow := SecFlow.earlyReturn, db := db,
        effects := [Effect.log LogLevel.debug "Statistics message already exists, skipping creation"],
        enq := [], fresh := fresh }
    | false =>
    if player.id == 0 then
      { flow := SecFlow.earlyReturn, db := db,
        effects := [Effect.log LogLevel.error "missing player id, skipping statistics creation"],
        enq := [], fresh := fresh }
    else if env.channels.contains sch then
      { flow := SecFlow.proceed,
        db := { db with statistics :=
          db.statistics ++ [{ id := fresh, player_id := player.id, message_id := fresh }] },
        effects :=
          [Effect.sendChannelMessage sch (Content.statsPlayerMsg mention player.id unit_message) fresh,
           Effect.log LogLevel.debug "Created statistics for player"],
        enq := [], fresh := fresh + 1 }
    else
      { flow := SecFlow.raised Exn.attributeError, db := db, effects := [],
        enq := [], fresh := fresh }

/-- `_handle_create_task` (`src/customclient.py` lines 212-298).  The
`SET SESSION innodb_lock_wait_timeout` statement is a persistence
collaborator call with no modelled observable.  The `task[1].id is None`
guard never fires here because detached copies always carry their `Nat`
key.  The subject is re-queried by key; a `Player` runs the dossier then
statistics sections, a `Unit` or `PlayerUpgrade` resolves its owning player
and enqueues one update task for it (the `requeued` flag is `False` at the
single `put_nowait` site of each branch, so the guarded else branch is
dead), any other or missing instance falls through. -/
def _handle_create_task (env : Env) (db : DB) (subject : Entity) (fresh : Nat) : HOut :=
  match requery db subject with
  | some (Entity.player player) =>
    let s1 := createDossierSection env db player fresh
    match s1.flow with
    | SecFlow.earlyReturn =>
      { result := HResult.ok false, db := s1.db, effects := s1.effects, enq := s1.enq,
        fresh := s1.fresh }
    | SecFlow.raised e =>
      { result := HResult.err e, db := s1.db, effects := s1.effects, enq := s1.enq,
        fresh := s1.fresh }
    | SecFlow.proceed =>
      let s2 := createStatisticsSection env s1.db player s1.fresh
      { result :=
          match s2.flow with
          | SecFlow.raised e => HResult.err e
          | _ => HResult.ok false,
        db := s2.db, effects := s1.effects ++ s2.effects, enq := s1.enq ++ s2.enq,
        fresh := s2.fresh }
  | some (Entity.unit instance_u) =>
    match db.players.find? (fun p => p.id == instance_u.player_id) with
    | some player =>
      { result := HResult.ok false, db := db,
        effects := [Effect.log LogLevel.debug "Queued update task for player due to unit"],
        enq := [QItem.tup [PyVal.vint 1, PyVal.vent (Entity.player player)]], fresh := fresh }
    | none =>
      { result := HResult.ok false, db := db,
        effects := [Effect.log LogLevel.error "Player not found for unit"],
        enq := [], fresh := fresh }
  | some (Entity.upgrade instance_g) =>
    match db.units.find? (fun u => u.id == instance_g.unit_id) with
    | none =>
      { result := HResult.err Exn.attributeError, db := db, effects := [], enq := [],
        fresh := fresh }
    | some unit =>
      match db.players.find? (fun p => p.id == unit.player_id) with
      | some player =>
        { result := HResult.ok false, db := db,
          effects := [Effect.log LogLevel.debug "Queued update task for player due to upgrade"],
          enq := [QItem.tup [PyVal.vint 1, PyVal.vent (Entity.player player)]], fresh := fresh }
      | none =>
        { result := HResult.ok false, db := db, effects := [], enq := [], fresh := fresh }
  | _ =>
    { result := HResult.ok false, db := db, effects := [], enq := [], fresh := fresh }

/-- The dossier part of `_handle_update_task` for a `Player` instance
(`src/customclient.py` lines 307-328).  If a `Dossier` row exists:
`self.config["dossier_channel_id"]` raises `KeyError` when unset; a
resolvable channel fetches the tracked message (a missing message makes the
subsequent `.edit` raise) and edits it with freshly rendered content whose
`medals` argument is the empty string.  If no row exists, a create task for
the player is enqueued under the `requeued` dedupe flag, which is returned
updated. -/
def updateDossierSection (env : Env) (db : DB) (player : Player) (requeued : Bool) :
    SecOut × Bool :=
  match db.dossiers.find? (fun d => d.player_id == player.id) with
  | some dossier =>
    match env.config.dossier_channel_id with
    | none =>
      ({ flow := SecFlow.raised Exn.keyError, db := db, effects := [], enq := [],
         fresh := 0 }, requeued)
    | some dch =>
      if env.channels.contains dch then
        if env.messages.contains (dch, dossier.message_id) then
          ({ flow := SecFlow.proceed, db := db,
             effects :=
               [Effect.editMessage dch dossier.message_id
                  (Content.dossierMsg (mentionOf env player.discord_id) player.id ""),
                Effect.log LogLevel.debug "Updated dossier for player"],
             enq := [], fresh := 0 }, requeued)
        else
          ({ flow := SecFlow.raised Exn.attributeError, db := db, effects := [], enq := [],
             fresh := 0 }, requeued)
      else
        ({ flow := SecFlow.proceed, db := db, effects := [], enq := [], fresh := 0 }, requeued)
  | none =>
    if requeued then
      ({ flow := SecFlow.proceed, db := db,
         effects := [Effect.log LogLevel.debug "Already queued create task for player"],
         enq := [], fresh := 0 }, requeued)
    else
      ({ flow := SecFlow.proceed, db := db,
         effects := [Effect.log LogLevel.debug "Queued create task for player, missing dossier"],
         enq := [QItem.tup [PyVal.vint 0, PyVal.vent (Entity.player player)]],
         fresh := 0 }, true)

/-- The statistics part of `_handle_update_task` for a `Player` instance
(`src/customclient.py` lines 329-352).  If a `Statistic` row exists:
`self.config["statistics_channel_id"]` raises `KeyError` when unset; a
resolvable channel fetches and edits the tracked message with a freshly
rendered roster, while an unresolvable channel only logs an error; with no
row, a create task is enqueued under the shared `requeued` flag. -/
def updateStatisticsSection (env : Env) (db : DB) (player : Player) (requeued : Bool) :
    SecOut × Bool :=
  match db.statistics.find? (fun s => s.player_id == player.id) with
  | some statistics =>
    match env.config.statistics_channel_id with
    | none =>
      ({ flow := SecFlow.raised Exn.keyError, db := db, effects := [], enq := [],
         fresh := 0 }, requeued)
    | some sch =>
      if env.channels.contains sch then
        if env.messages.contains (sch, statistics.message_id) then
          ({ flow := SecFlow.proceed, db := db,
             effects :=
               [Effect.editMessage sch statistics.message_id
                  (Content.statsPlayerMsg (mentionOf env player.discord_id) player.id
                    (generate_unit_message db player)),
                Effect.log LogLevel.debug "Updated statistics for player"],
             enq := [], fresh := 0 }, requeued)
        else
          ({ flow := SecFlow.raised Exn.attributeError, db := db, effects := [], enq := [],
             fresh := 0 }, requeued)
      else
        ({ flow := SecFlow.proceed, db := db,
           effects := [Effect.log LogLevel.error "No channel found for statistics message, skipping"],
           enq := [], fresh := 0 }, requeued)
  | none =>
    if requeued then
      ({ flow := SecFlow.proceed, db := db,
         effects := [Effect.log LogLevel.debug "Already queued create task for player"],
         enq := [], fresh := 0 }, requeued)
    else
      ({ flow := SecFlow.proceed, db := db,
         effects := [Effect.log LogLevel.debug "Queued create task for player, missing statistics"],
         enq := [QItem.tup [PyVal.vint 0, PyVal.vent (Entity.player player)]],
         fresh := 0 }, true)

/-- `_handle_update_task` (`src/customclient.py` lines 300-373).  The
subject is re-queried by key.  A `Player` runs the dossier then statistics
sections with a shared `requeued` flag starting at `False` (the update
sections never touch the database or the fresh counter, which pass
through).  A `Unit` instance resolves its owning player and enqueues one
update task.  The upgrade branch tests `isinstance(task[1], PlayerUpgrade)`
on the detached subject, not on the re-queried instance, and reads
`unit_id` from the detached copy; a missing unit row makes
`unit.player_id` raise. -/
def _handle_update_task (env : Env) (db : DB) (subject : Entity) (fresh : Nat) : HOut :=
  match requery db subject with
  | some (Entity.player player) =>
    let r1 := updateDossierSection env db player false
    match r1.fst.flow with
    | SecFlow.raised e =>
      { result := HResult.err e, db := db, effects := r1.fst.effects, enq := r1.fst.enq,
        fresh := fresh }
    | _ =>
      let r2 := updateStatisticsSection env db player r1.snd
      { result :=
          match r2.fst.flow with
          | SecFlow.raised e => HResult.err e
          | _ => HResult.ok false,
        db := db, effects := r1.fst.effects ++ r2.fst.effects,
        enq := r1.fst.enq ++ r2.fst.enq, fresh := fresh }
  | some (Entity.unit unit) =>
    match db.players.find? (fun p => p.id == unit.player_id) with
    | some player =>
      { result := HResult.ok false, db := db,
        effects := [Effect.log LogLevel.debug "Queued update task for player due to unit"],
        enq := [QItem.tup [PyVal.vint 1, PyVal.vent (Entity.player player)]], fresh := fresh }
    | none =>
      { result := HResult.ok false, db := db, effects := [], enq := [], fresh := fresh }
  | _ =>
    match subject with
    | Entity.upgrade upgrade =>
      match db.units.find? (fun u => u.id == upgrade.unit_id) with
      | none =>
        { result := HResult.err Exn.attributeError, db := db, effects := [], enq := [],
          fresh := fresh }
      | some unit =>
        match db.players.find? (fun p => p.id == unit.player_id) with
        | some player =>
          { result := HResult.ok false, db := db,
            effects := [Effect.log LogLevel.debug "Queued update task for player due to upgrade"],
            enq := [QItem.tup [PyVal.vint 1, PyVal.vent (Entity.player player)]],
            fresh := fresh }
        | none =>
          { result := HResult.ok false, db := db, effects := [], enq := [], fresh := fresh }
    | _ =>
      { result := HResult.ok false, db := db, effects := [], enq := [], fresh := fresh }

/-- `_handle_delete_task` (`src/customclient.py` lines 375-421).  The
subject is re-queried by key under `session.no_autoflush` (lookup only, no
modelled observable).  A `Dossier` or `Statistic` instance deletes its
tracked message in the configured channel when the channel resolves (the
config lookup is a raising `[...]` access; a missing message makes
`.delete` raise); a `Unit` instance is expunged and the handler returns
before the trailing expunge (the dead code after its `return` is not
modelled); a `PlayerUpgrade` resolves unit then player and enqueues one
update task for the player.  Whenever a live instance was found and no
exception was raised on the way, the trailing `if instance:
session.expunge(instance)` detaches it. -/
def _handle_delete_task (env : Env) (db : DB) (subject : Entity) (fresh : Nat) : HOut :=
  match requery db subject with
  | none =>
    { result := HResult.ok false, db := db, effects := [], enq := [], fresh := fresh }
  | some inst =>
    match inst with
    | Entity.dossier dossier =>
      match env.config.dossier_channel_id with
      | none =>
        { result := HResult.err Exn.keyError, db := db, effects := [], enq := [],
          fresh := fresh }
      | some dch =>
        if env.channels.contains dch then
          if env.messages.contains (dch, dossier.message_id) then
            { result := HResult.ok false, db := db,
              effects :=
                [Effect.deleteMessage dch dossier.message_id,
                 Effect.log LogLevel.debug "Deleted dossier message",
                 Effect.expunge inst],
              enq := [], fresh := fresh }
          else
            { result := HResult.err Exn.attributeError, db := db, effects := [], enq := [],
              fresh := fresh }
        else
          { result := HResult.ok false, db := db, effects := [Effect.expunge inst],
            enq := [], fresh := fresh }
    | Entity.statistic statistic =>
      match env.config.statistics_channel_id with
      | none =>
        { result := HResult.err Exn.keyError, db := db, effects := [], enq := [],
          fresh := fresh }
      | some sch =>
        if env.channels.contains sch then
          if env.messages.contains (sch, statistic.message_id) then
            { result := HResult.ok false, db := db,
              effects :=
                [Effect.deleteMessage sch statistic.message_id,
                 Effect.log LogLevel.debug "Deleted statistics message",
                 Effect.expunge inst],
              enq := [], fresh := fresh }
          else
            { result := HResult.err Exn.attributeError, db := db, effects := [], enq := [],
              fresh := fresh }
        else
          { result := HResult.ok false, db := db, effects := [Effect.expunge inst],
            enq := [], fresh := fresh }
    | Entity.unit _ =>
      { result := HResult.ok false, db := db,
        effects := [Effect.log LogLevel.debug "instance is a unit, expunging",
                    Effect.expunge inst],
        enq := [], fresh := fresh }
    | Entity.upgrade upgrade =>
      match db.units.find? (fun u => u.id == upgrade.unit_id) with
      | none =>
        { result := HResult.err Exn.attributeError, db := db, effects := [], enq := [],
          fresh := fresh }
      | some unit =>
        match db.players.find? (fun p => p.id == unit.player_id) with
        | some player =>
          { result := HResult.ok false, db := db,
            effects := [Effect.log LogLevel.debug "Queued update task for player due to upgrade",
                        Effect.expunge inst],
            enq := [QItem.tup [PyVal.vint 1, PyVal.vent (Entity.player player)]],
            fresh := fresh }
        | none =>
          { result := HResult.ok false, db := db, effects := [Effect.expunge inst],
            enq := [], fresh := fresh }
    | Entity.player _ =>
      { result := HResult.ok false, db := db, effects := [Effect.expunge inst],
        enq := [], fresh := fresh }

/-- `_handle_terminate_task` (`src/customclient.py` lines 423-425): log and
return `True`, the only truthy handler return value. -/
def _handle_terminate_task (db : DB) (fresh : Nat) : HOut :=
  { result := HResult.ok true, db := db,
    effects := [Effect.log LogLevel.debug "Queue consumer terminating"],
    enq := [], fresh := fresh }

/-- `handlers.get(task[0], unknown_handler)(task)` followed by `await`.
Task kinds 0, 1, 2, 4 dispatch to their handlers.  Any other key falls back
to the plain lambda `unknown_handler`, which logs and returns `None`; the
loop then evaluates `await None`, which raises `TypeError`. -/
def dispatchHandler (env : Env) (k : PyVal) (ent : Entity) (db : DB) (fresh : Nat) : HOut :=
  if k == PyVal.vint 0 then _handle_create_task env db ent fresh
  else if k == PyVal.vint 1 then _handle_update_task env db ent fresh
  else if k == PyVal.vint 2 then _handle_delete_task env db ent fresh
  else if k == PyVal.vint 4 then _handle_terminate_task db fresh
  else
    { result := HResult.err Exn.typeError, db := db,
      effects := [Effect.log LogLevel.error "Unknown task type"], enq := [], fresh := fresh }

/-- The loop-local state of `queue_consumer`: the pending queue (head is
next to be dequeued; `put_nowait` appends), the rolling rate-limit counter,
the `nosleep` pacing flag, the current time in seconds (advanced only by
the pacing sleep; handler latencies are not modelled), the database and the
fresh-identifier counter. -/
structure LoopState where
  queue : List QItem
  ratelimit : RollingCounterDict
  nosleep : Bool
  now : Nat
  db : DB
  fresh : Nat
deriving Repr, BEq, DecidableEq

/-- Loop-level status after one iteration.  `running` continues the `while
True`; `stopped` is the `break` on a truthy handler result; `aborted` is
the high-water `close()` path: `close` tears down the Discord client, which
makes `bot.start()` (awaited by `asyncio.run` in `main.py`) return, so the
consumer task is cancelled at its next suspension point — inside `close`
itself — and the process exits; `blocked` is `await self.queue.get()` on an
empty queue with no producer modelled; `crashed` is an exception escaping
the loop body (everything outside the `try` around the handler call). -/
inductive LoopStatus where
  | running
  | stopped
  | aborted
  | blocked
  | crashed (e : Exn)
deriving Repr, BEq, DecidableEq

/-- Result of one iteration of the consumer loop. -/
structure StepOut where
  status : LoopStatus
  state : LoopState
  effects : List Effect
deriving Repr, BEq, DecidableEq

/-- The hard-coded bot owner identity messaged by the high-water branch. -/
def owner_id : Nat := 533009808501112881

/-- Dispatch and retry (`src/customclient.py` lines 194-208): call the
handler for the task kind; a truthy result breaks the loop; an exception is
caught, logged, and the task is re-enqueued as `(*task[:2], fail_count +
1)` after any tasks the handler itself enqueued.  Handler enqueues, its
database changes and its partial effects are kept in every case. -/
def dispatchStep (env : Env) (s : LoopState) (k : PyVal) (ent : Entity) (n : Int) : StepOut :=
  let h := dispatchHandler env k ent s.db s.fresh
  let sApplied : LoopState :=
    { s with db := h.db, fresh := h.fresh, queue := s.queue ++ h.enq }
  match h.result with
  | HResult.ok b =>
    if b then { status := LoopStatus.stopped, state := sApplied, effects := h.effects }
    else { status := LoopStatus.running, state := sApplied, effects := h.effects }
  | HResult.err _ =>
    { status := LoopStatus.running,
      state := { sApplied with
        queue := sApplied.queue ++ [QItem.tup [k, PyVal.vent ent, PyVal.vint (n + 1)]] },
      effects := h.effects ++ [Effect.log LogLevel.error "Error processing task"] }

/-- The part of the loop body after tuple-shape normalization
(`src/customclient.py` lines 181-208): record the subject key in the
rolling counter, discard with a warning when the key has now occurred at
least 5 times inside the window, discard with an error when the fail count
exceeds 5 (a non-`int` fail count makes the `>` comparison raise
`TypeError`), and otherwise dispatch. -/
def afterMerge (env : Env) (s : LoopState) (k : PyVal) (ent : Entity) (fc : PyVal) : StepOut :=
  let key := strKey ent
  let rl := s.ratelimit.set key s.now
  let s2 : LoopState := { s with ratelimit := rl }
  if 5 ≤ rl.get key s.now then
    { status := LoopStatus.running, state := { s2 with nosleep := true },
      effects := [Effect.log LogLevel.warning "Ratelimit hit"] }
  else
    match fc with
    | PyVal.vint n =>
      if 5 < n then
        { status := LoopStatus.running, state := { s2 with nosleep := true },
          effects := [Effect.log LogLevel.error "Task failed too many times, skipping"] }
      else dispatchStep env s2 k ent n
    | _ => { status := LoopStatus.crashed Exn.typeError, state := s2, effects := [] }

/-- `session.merge(task[1])` during tuple normalization: merging a detached
entity returns the identity-mapped instance for its key (the entity
itself); merging `None` or an `int` raises `UnmappedInstanceError`, which
is outside the `try` and crashes the consumer. -/
def mergeThen (env : Env) (s : LoopState) (k : PyVal) (subj : PyVal) (fc : PyVal) : StepOut :=
  match subj with
  | PyVal.vent ent => afterMerge env s k ent fc
  | _ => { status := LoopStatus.crashed Exn.unmappedInstanceError, state := s, effects := [] }

/-- One dequeued item (`src/customclient.py` lines 162-208): non-tuples and
tuples of bad arity are logged and skipped with `nosleep` set; 3-tuples and
2-tuples are normalized through `session.merge` (a 2-tuple gets fail count
0); a 1-tuple whose head is `4` bypasses the shape validation and then
crashes with `IndexError` at `ratelimit.set(str(task[1]))`, since a 1-tuple
has no second element. -/
def itemStep (env : Env) (s : LoopState) (item : QItem) : StepOut :=
  match item with
  | QItem.obj _ =>
    { status := LoopStatus.running, state := { s with nosleep := true },
      effects := [Effect.log LogLevel.error "Task is not a tuple, skipping"] }
  | QItem.tup elems =>
    match elems with
    | [k, subj, fc] => mergeThen env s k subj fc
    | [k, subj] => mergeThen env s k subj (PyVal.vint 0)
    | [k] =>
      if k == PyVal.vint 4 then
        { status := LoopStatus.crashed Exn.indexError, state := s, effects := [] }
      else
        { status := LoopStatus.running, state := { s with nosleep := true },
          effects := [Effect.log LogLevel.error "Tuple of length 1 with first element not 4, skipping"] }
    | _ =>
      { status := LoopStatus.running, state := { s with nosleep := true },
        effects := [Effect.log LogLevel.error "Tuple of bad length, skipping"] }

/-- One iteration of `queue_consumer` (`src/customclient.py` lines
148-208): sleep 0 or 5 seconds according to `nosleep`; if the queue depth
has reached 400, log critically, direct-message the owner when fetchable,
and call `self.close()` — `close` enqueues `(4, None)`, and tearing down
the client terminates the process (status `aborted`); otherwise dequeue the
next item and process it. -/
def queue_consumer_step (env : Env) (s : LoopState) : StepOut :=
  let t := if s.nosleep then s.now else s.now + 5
  let s0 : LoopState := { s with now := t, nosleep := false }
  if 400 ≤ s.queue.length then
    { status := LoopStatus.aborted,
      state := { s0 with queue := s0.queue ++ [QItem.tup [PyVal.vint 4, PyVal.vnone]] },
      effects :=
        [Effect.log LogLevel.critical "Queue size is too high"] ++
        (if env.users.contains owner_id then
          [Effect.sendDM owner_id "Queue size is too high, terminating"]
        else []) ++
        [Effect.closeCalled] }
  else
    match s.queue with
    | [] => { status := LoopStatus.blocked, state := s0, effects := [] }
    | item :: rest => itemStep env { s0 with queue := rest } item

/-- Iterate `queue_consumer_step` while the loop keeps running, for at most
`fuel` iterations, accumulating the effect trace; any non-`running` status
is terminal. -/
def queue_consumer_run (env : Env) : Nat → LoopState → List Effect × LoopStatus
  | 0, _ => ([], LoopStatus.running)
  | Nat.succ n, s =>
    let out := queue_consumer_step env s
    match out.status with
    | LoopStatus.running =>
      let r := queue_consumer_run env n out.state
      (out.effects ++ r.fst, r.snd)
    | st => (out.effects, st)

/-- Does this effect send a new channel message? -/
def Effect.isSendMsg : Effect → Bool
  | Effect.sendChannelMessage _ _ _ => true
  | _ => false

/-- Does this effect edit an existing message? -/
def Effect.isEditMsg : Effect → Bool
  | Effect.editMessage _ _ _ => true
  | _ => false

/-- Does this effect edit a message with dossier-template content? -/
def Effect.isDossierEdit : Effect → Bool
  | Effect.editMessage _ _ (Content.dossierMsg _ _ _) => true
  | _ => false

/-- Does this effect expunge an instance from the session? -/
def Effect.isExpunge : Effect → Bool
  | Effect.expunge _ => true
  | _ => false

/-- The fail count the dispatch loop reads for a queue item: the third slot
of a 3-tuple, the implicit `0` of a 2-tuple, undefined otherwise. -/
def failCountOfItem : QItem → Option PyVal
  | QItem.tup [_, _, fc] => some fc
  | QItem.tup [_, _] => some (PyVal.vint 0)
  | _ => none

/-- Is a dequeued item rejected by the tuple-shape validation
(`src/customclient.py` lines 163-180): any non-tuple, any tuple of length
0 or at least 4, and a 1-tuple whose head is not the terminate kind `4`. -/
def malformedItem : QItem → Bool
  | QItem.obj _ => true
  | QItem.tup [_, _] => false
  | QItem.tup [_, _, _] => false
  | QItem.tup [k] => !(k == PyVal.vint 4)
  | QItem.tup _ => true

/-- The error message logged for each malformed item shape
(`src/customclient.py` lines 164, 174, 178). -/
def malformedLog : QItem → String
  | QItem.obj _ => "Task is not a tuple, skipping"
  | QItem.tup [_] => "Tuple of length 1 with first element not 4, skipping"
  | QItem.tup _ => "Tuple of bad length, skipping"

/-- Concrete messaging environment used by the witnesses: both channels
configured and resolvable, the tracked messages and the player user (and
the bot owner) present, one known medal emote. -/
def envFix : Env :=
  { config := { dossier_channel_id := some 5, statistics_channel_id := some 6 },
    channels := [5, 6],
    messages := [(5, 50), (6, 60)],
    users := [10, owner_id],
    medal_emotes := [("ACM", "emoteACM")] }

/-- Witness player. -/
def p1Fix : Player := { id := 1, discord_id := 10 }

/-- Witness unit, owned by `p1Fix`. -/
def u2Fix : Unit :=
  { id := 2, player_id := 1, name := "u2", unit_type := "INFANTRY", status := "ACTIVE",
    callsign := "CS" }

/-- Witness upgrade, attached to `u2Fix`. -/
def g3Fix : PlayerUpgrade := { id := 3, unit_id := 2, name := "upg" }

/-- Witness dossier row for `p1Fix`, tracking message 50 in channel 5. -/
def dosFix : Dossier := { id := 7, player_id := 1, message_id := 50 }

/-- Witness statistics row for `p1Fix`, tracking message 60 in channel 6. -/
def statFix : Statistic := { id := 8, player_id := 1, message_id := 60 }

/-- Concrete database used by the witnesses. -/
def dbFix : DB :=
  { players := [p1Fix],
    units := [u2Fix],
    upgrades := [g3Fix],
    dossiers := [dosFix],
    statistics := [statFix],
    medals := [{ player_id := 1, name := "ACM" }] }

/-- A fresh rolling counter with the 30-second window of the consumer. -/
def rlFix : RollingCounterDict := { window := 30, entries := [] }

/-- A loop state holding exactly the given queue over the witness
database. -/
def stFix (q : List QItem) : LoopState :=
  { queue := q, ratelimit := rlFix, nosleep := true, now := 0, db := dbFix, fresh := 100 }

/-- The witness database with the unit table emptied, so that the upgrade
branch of the create handler raises on the missing unit row. -/
def dbNoUnits : DB := { dbFix with units := [] }

/-- The witness database with the dossier table emptied: the witness player
keeps a live `Statistic` message but has no `Dossier` row. -/
def dbNoDossier : DB := { dbFix with dossiers := [] }

/-- The witness environment with every Discord message deleted out-of-band:
channels still resolve but no tracked message exists. -/
def envNoMsgs : Env := { envFix with messages := [] }

/-- A rolling counter already holding four in-window occurrences of the
witness player key at time 0. -/
def rl4Fix : RollingCounterDict := { window := 30, entries := [("Player:1", [0, 0, 0, 0])] }

/-- A rolling counter holding one occurrence of the witness player key at
time 0, fully expired by time 30. -/
def rc1Fix : RollingCounterDict := { window := 30, entries := [("Player:1", [0])] }

/-- C1: the claim says a well-formed Terminate task carries no subject,
bypasses the (kind, subject) shape validation, is dispatched to the
Terminate handler, and its truthy return ends the loop cleanly.  The code
contradicts its own docstring (task type 4 is documented as graceful
termination, and `close()` enqueues `(4, None)` expecting it): a no-subject
1-tuple `(4,)` does bypass the validation but then raises `IndexError` at
`ratelimit.set(str(task[1]))` before any dispatch, and the `(4, None)`
enqueued by `close()` raises `UnmappedInstanceError` at
`session.merge(None)`; the Terminate handler — which would indeed return
the truthy sentinel — is never invoked, and the loop ends by an uncaught
exception. -/
theorem c1_terminate_task_crashes_before_dispatch :
    (queue_consumer_step envFix (stFix [QItem.tup [PyVal.vint 4]])).status
      = LoopStatus.crashed Exn.indexError
    ∧ (queue_consumer_step envFix (stFix [QItem.tup [PyVal.vint 4]])).effects = []
    ∧ (queue_consumer_step envFix (stFix [QItem.tup [PyVal.vint 4, PyVal.vnone]])).status
      = LoopStatus.crashed Exn.unmappedInstanceError
    ∧ (queue_consumer_run envFix 5 (stFix [QItem.tup [PyVal.vint 4]])).snd
      = LoopStatus.crashed Exn.indexError
    ∧ (_handle_terminate_task dbFix 100).result = HResult.ok true := by
  refine ⟨rfl, rfl, rfl, rfl, rfl⟩

/-- C2: whenever the dispatch loop observes a queue depth of at least 400,
it logs critically, direct-messages the designated owner identity (when the
owner user resolves) and invokes the process-terminate primitive
(`self.close()`) exactly once; the loop state goes to `aborted` and the
remaining run trace is exactly the abort effects, so no further task is
dequeued or dispatched after that point. -/
theorem c2_high_water_aborts (env : Env) (s : LoopState) (fuel : Nat)
    (hq : 400 ≤ s.queue.length)
    (howner : env.users.contains owner_id = true)
    (hfuel : 1 ≤ fuel) :
    queue_consumer_run env fuel s =
      ([Effect.log LogLevel.critical "Queue size is too high",
        Effect.sendDM owner_id "Queue size is too high, terminating",
        Effect.closeCalled], LoopStatus.aborted)
    ∧ (queue_consumer_run env fuel s).fst.count Effect.closeCalled = 1 := by
  obtain ⟨n, rfl⟩ : ∃ n, fuel = n + 1 := ⟨fuel - 1, by omega⟩
  have h1 : queue_consumer_run env (n + 1) s =
      ([Effect.log LogLevel.critical "Queue size is too high",
        Effect.sendDM owner_id "Queue size is too high, terminating",
        Effect.closeCalled], LoopStatus.aborted) := by
    simp only [queue_consumer_run, queue_consumer_step, if_pos hq, howner, if_true]
    rfl
  exact ⟨h1, by rw [h1]; rfl⟩

/-- C2 witness: a queue of 400 junk items over the witness environment is
aborted with exactly the owner direct message and one `close()` call. -/
theorem c2_high_water_aborts_witness :
    queue_consumer_run envFix 3 (stFix (List.replicate 400 (QItem.obj PyVal.vnone))) =
      ([Effect.log LogLevel.critical "Queue size is too high",
        Effect.sendDM owner_id "Queue size is too high, terminating",
        Effect.closeCalled], LoopStatus.aborted)
    ∧ (queue_consumer_run envFix 3
        (stFix (List.replicate 400 (QItem.obj PyVal.vnone)))).fst.count Effect.closeCalled = 1 :=
  c2_high_water_aborts envFix (stFix (List.replicate 400 (QItem.obj PyVal.vnone))) 3
    (by simp only [stFix, List.length_replicate]; exact Nat.le_refl 400) (by rfl) (by omega)

/-- C8: any dequeued item that is not a well-formed task tuple — a
non-tuple, a tuple of wrong arity, or a 1-tuple that is not the bare
terminate kind — is logged as an error and discarded, non-fatally: the loop
status stays `running` with the remaining queue, the database, rolling
counter, clock and fresh counter untouched, the pacing flag reset to
no-delay mode, and the only effect an error log of the item shape. -/
theorem c8_malformed_item_discarded (env : Env) (item : QItem) (rest : List QItem)
    (rl : RollingCounterDict) (now : Nat) (db : DB) (fresh : Nat)
    (hlen : (item :: rest).length < 400)
    (hmal : malformedItem item = true) :
    queue_consumer_step env
        { queue := item :: rest, ratelimit := rl, nosleep := true, now := now, db := db,
          fresh := fresh } =
      { status := LoopStatus.running,
        state := { queue := rest, ratelimit := rl, nosleep := true, now := now, db := db,
                   fresh := fresh },
        effects := [Effect.log LogLevel.error (malformedLog item)] } := by
  have hq : ¬ 400 ≤ (item :: rest).length := by omega
  cases item with
  | obj v =>
    simp only [queue_consumer_step, if_neg hq, itemStep, malformedLog]
    rfl
  | tup es =>
    match es, hmal with
    | [], _ =>
      simp only [queue_consumer_step, if_neg hq, itemStep, malformedLog]
      rfl
    | [k], hm =>
      have hk : (k == PyVal.vint 4) = false := by
        simpa [malformedItem] using hm
      simp only [queue_consumer_step, if_neg hq, itemStep, malformedLog, hk,
        Bool.false_eq_true, if_false]
      rfl
    | [_, _], hm => simp [malformedItem] at hm
    | [_, _, _], hm => simp [malformedItem] at hm
    | (_ :: _ :: _ :: _ :: _), _ =>
      simp only [queue_consumer_step, if_neg hq, itemStep, malformedLog]
      rfl

/-- C8 witness: the empty tuple is malformed and is discarded by the loop
over the witness database with an error log, no-delay mode set and the
queue moved past it. -/
theorem c8_malformed_item_discarded_witness :
    queue_consumer_step envFix
        { queue := QItem.tup [] :: [QItem.tup [PyVal.vint 4]], ratelimit := rlFix, nosleep := true,
          now := 0, db := dbFix, fresh := 100 } =
      { status := LoopStatus.running,
        state := { queue := [QItem.tup [PyVal.vint 4]], ratelimit := rlFix, nosleep := true,
                   now := 0, db := dbFix, fresh := 100 },
        effects := [Effect.log LogLevel.error (malformedLog (QItem.tup []))] } :=
  c8_malformed_item_discarded envFix (QItem.tup []) [QItem.tup [PyVal.vint 4]] rlFix 0 dbFix 100
    (by decide) (by decide)

/-- C3: first, when a handler raises, the loop keeps running, appends the
tasks the handler enqueued and then the same task with kind and subject
preserved and the fail count incremented, keeping the handler partial
effects plus the caught-exception error log; second, a task whose fail
count exceeds 5 is discarded with only an error log — queue, database and
counters move past it and no handler runs. -/
theorem c3_retry_and_drop (env : Env) (k : PyVal) (ent ent2 : Entity) (e : Exn)
    (n m : Int) (rest rest2 : List QItem) (rl rl2 : RollingCounterDict) (now now2 : Nat)
    (db db2 : DB) (fresh fresh2 : Nat) (h : HOut)
    (hlen : (QItem.tup [k, PyVal.vent ent, PyVal.vint n] :: rest).length < 400)
    (hrl : (rl.set (strKey ent) now).get (strKey ent) now < 5)
    (hn : n ≤ 5)
    (hdisp : dispatchHandler env k ent db fresh = h)
    (herr : h.result = HResult.err e)
    (hlen2 : (QItem.tup [k, PyVal.vent ent2, PyVal.vint m] :: rest2).length < 400)
    (hrl2 : (rl2.set (strKey ent2) now2).get (strKey ent2) now2 < 5)
    (hm : 5 < m) :
    queue_consumer_step env
        { queue := QItem.tup [k, PyVal.vent ent, PyVal.vint n] :: rest, ratelimit := rl,
          nosleep := true, now := now, db := db, fresh := fresh } =
      { status := LoopStatus.running,
        state := { queue := (rest ++ h.enq) ++ [QItem.tup [k, PyVal.vent ent, PyVal.vint (n + 1)]],
                   ratelimit := rl.set (strKey ent) now, nosleep := false, now := now,
                   db := h.db, fresh := h.fresh },
        effects := h.effects ++ [Effect.log LogLevel.error "Error processing task"] }
    ∧ queue_consumer_step env
        { queue := QItem.tup [k, PyVal.vent ent2, PyVal.vint m] :: rest2, ratelimit := rl2,
          nosleep := true, now := now2, db := db2, fresh := fresh2 } =
      { status := LoopStatus.running,
        state := { queue := rest2, ratelimit := rl2.set (strKey ent2) now2, nosleep := true,
                   now := now2, db := db2, fresh := fresh2 },
        effects := [Effect.log LogLevel.error "Task failed too many times, skipping"] } := by
  constructor
  · have h400 : ¬ 400 ≤ (QItem.tup [k, PyVal.vent ent, PyVal.vint n] :: rest).length := by omega
    have hnn : ¬ 5 < n := by omega
    have hrlm : ¬ 5 ≤ (rl.set (strKey ent) now).get (strKey ent) now := by omega
    simp only [queue_consumer_step, itemStep, mergeThen, afterMerge, dispatchStep,
      if_neg h400, if_true, if_neg hnn, if_neg hrlm, hdisp, herr]
  · have h400 : ¬ 400 ≤ (QItem.tup [k, PyVal.vent ent2, PyVal.vint m] :: rest2).length := by omega
    have hrlm : ¬ 5 ≤ (rl2.set (strKey ent2) now2).get (strKey ent2) now2 := by omega
    simp only [queue_consumer_step, itemStep, mergeThen, afterMerge, if_neg h400,
      if_true, if_neg hrlm, if_pos hm]

/-- C3 witness: a create task for the witness upgrade over a database with
no unit rows makes the handler raise `AttributeError`; the loop re-enqueues
it as a 3-tuple with fail count 1.  A create task for the witness player
carrying fail count 6 is discarded without dispatch. -/
theorem c3_retry_and_drop_witness :
    queue_consumer_step envFix
        { queue := [QItem.tup [PyVal.vint 0, PyVal.vent (Entity.upgrade g3Fix), PyVal.vint 0]],
          ratelimit := rlFix, nosleep := true, now := 0, db := dbNoUnits, fresh := 100 } =
      { status := LoopStatus.running,
        state := { queue := [QItem.tup [PyVal.vint 0, PyVal.vent (Entity.upgrade g3Fix),
                     PyVal.vint (0 + 1)]],
                   ratelimit := rlFix.set (strKey (Entity.upgrade g3Fix)) 0, nosleep := false,
                   now := 0, db := dbNoUnits, fresh := 100 },
        effects := [Effect.log LogLevel.error "Error processing task"] }
    ∧ queue_consumer_step envFix
        { queue := [QItem.tup [PyVal.vint 0, PyVal.vent (Entity.player p1Fix), PyVal.vint 6]],
          ratelimit := rlFix, nosleep := true, now := 0, db := dbFix, fresh := 100 } =
      { status := LoopStatus.running,
        state := { queue := [], ratelimit := rlFix.set (strKey (Entity.player p1Fix)) 0,
                   nosleep := true, now := 0, db := dbFix, fresh := 100 },
        effects := [Effect.log LogLevel.error "Task failed too many times, skipping"] } :=
  c3_retry_and_drop envFix (PyVal.vint 0) (Entity.upgrade g3Fix) (Entity.player p1Fix)
    Exn.attributeError 0 6 [] [] rlFix rlFix 0 0 dbNoUnits dbFix 100 100
    { result := HResult.err Exn.attributeError, db := dbNoUnits, effects := [], enq := [],
      fresh := 100 }
    (by decide) (by decide) (by decide) (by decide) (by decide) (by decide) (by decide)
    (by decide)

/-- Recording a key appends its timestamp to the timestamps of that key
(and touches no other key entry). -/
theorem stampsOf_setEntries (key : String) (t : Nat) (l : List (String × List Nat)) :
    stampsOf key (setEntries key t l) = stampsOf key l ++ [t] := by
  induction l with
  | nil => simp [setEntries, stampsOf]
  | cons kv rest ih =>
    by_cases hk : kv.fst == key
    · simp [setEntries, stampsOf, hk]
    · simp only [setEntries, stampsOf, hk, Bool.false_eq_true, if_false, ite_false]
      exact ih

/-- After recording a key all of whose stored occurrences have fully
expired by time `t` (each stamp satisfies `stamp + window <= t`), the
in-window count is exactly the single fresh occurrence. -/
theorem get_set_of_expired (rc : RollingCounterDict) (key : String) (t : Nat)
    (hwpos : 0 < rc.window)
    (hexp : ∀ t0 ∈ rc.stamps key, t0 + rc.window ≤ t) :
    (rc.set key t).get key t = 1 := by
  unfold RollingCounterDict.get RollingCounterDict.set RollingCounterDict.stamps
  simp only
  rw [show stampsOf key (setEntries key t rc.entries) = rc.stamps key ++ [t] from
    stampsOf_setEntries key t rc.entries]
  rw [List.filter_append]
  have hnil : (rc.stamps key).filter (fun t0 => decide (t < t0 + rc.window)) = [] := by
    rw [List.filter_eq_nil_iff]
    intro a ha
    have := hexp a ha
    simp only [decide_eq_true_eq]
    omega
  rw [hnil]
  have hlive : t < t + rc.window := by omega
  simp [hlive]

/-- C4: before dispatching, the loop records an occurrence of the subject
key in the rolling counter.  First, when the key has now occurred at least
5 times inside the trailing window, the task is discarded silently: only a
warning is logged, the queue moves past it, and database, clock and
counters are otherwise unchanged (the recording is kept).  Second, on the
dispatch path the post-state counter is exactly the pre-state counter with
the occurrence recorded, whatever the handler does.  Third, for a key all
of whose recorded occurrences have fully elapsed from the 30-second
window, a fresh record counts 1 — strictly below the threshold 5, so such
a task is not rate-limited. -/
theorem c4_rolling_rate_limit (env : Env) (k : PyVal) (ent ent2 : Entity) (n2 : Int)
    (rest rest2 : List QItem) (rl rl2 rc : RollingCounterDict) (now now2 t : Nat)
    (db db2 : DB) (fresh fresh2 : Nat) (key : String)
    (hlen : (QItem.tup [k, PyVal.vent ent] :: rest).length < 400)
    (hge : 5 ≤ (rl.set (strKey ent) now).get (strKey ent) now)
    (hlen2 : (QItem.tup [k, PyVal.vent ent2, PyVal.vint n2] :: rest2).length < 400)
    (hlt : (rl2.set (strKey ent2) now2).get (strKey ent2) now2 < 5)
    (hn2 : n2 ≤ 5)
    (hw : rc.window = 30)
    (hexp : ∀ t0 ∈ rc.stamps key, t0 + 30 ≤ t) :
    queue_consumer_step env
        { queue := QItem.tup [k, PyVal.vent ent] :: rest, ratelimit := rl,
          nosleep := true, now := now, db := db, fresh := fresh } =
      { status := LoopStatus.running,
        state := { queue := rest, ratelimit := rl.set (strKey ent) now, nosleep := true,
                   now := now, db := db, fresh := fresh },
        effects := [Effect.log LogLevel.warning "Ratelimit hit"] }
    ∧ (queue_consumer_step env
        { queue := QItem.tup [k, PyVal.vent ent2, PyVal.vint n2] :: rest2, ratelimit := rl2,
          nosleep := true, now := now2, db := db2, fresh := fresh2 }).state.ratelimit
      = rl2.set (strKey ent2) now2
    ∧ (rc.set key t).get key t = 1
    ∧ ¬ 5 ≤ (rc.set key t).get key t := by
  refine ⟨?_, ?_, ?_, ?_⟩
  · have h400 : ¬ 400 ≤ (QItem.tup [k, PyVal.vent ent] :: rest).length := by omega
    simp only [queue_consumer_step, itemStep, mergeThen, afterMerge, if_neg h400,
      if_true, if_pos hge]
  · have h400 : ¬ 400 ≤ (QItem.tup [k, PyVal.vent ent2, PyVal.vint n2] :: rest2).length := by
      omega
    have hnn : ¬ 5 < n2 := by omega
    have hrlm : ¬ 5 ≤ (rl2.set (strKey ent2) now2).get (strKey ent2) now2 := by omega
    simp only [queue_consumer_step, itemStep, mergeThen, afterMerge, if_neg h400,
      if_true, if_neg hrlm, if_neg hnn, dispatchStep]
    cases hres : (dispatchHandler env k ent2 db2 fresh2).result with
    | ok b => cases b <;> simp [hres]
    | err e2 => simp [hres]
  · exact get_set_of_expired rc key t (by omega) (by rw [hw]; exact hexp)
  · rw [get_set_of_expired rc key t (by omega) (by rw [hw]; exact hexp)]
    omega

/-- C4 witness: over the witness fixtures, a fifth in-window occurrence of
the player key is discarded with a warning; a first occurrence is recorded
on the dispatch path; and the player key recorded at time 0 is expired and
counts 1 when recorded again at time 30. -/
theorem c4_rolling_rate_limit_witness :
    queue_consumer_step envFix
        { queue := QItem.tup [PyVal.vint 0, PyVal.vent (Entity.player p1Fix)] :: [],
          ratelimit := rl4Fix, nosleep := true, now := 0, db := dbFix, fresh := 100 } =
      { status := LoopStatus.running,
        state := { queue := [], ratelimit := rl4Fix.set (strKey (Entity.player p1Fix)) 0,
                   nosleep := true, now := 0, db := dbFix, fresh := 100 },
        effects := [Effect.log LogLevel.warning "Ratelimit hit"] }
    ∧ (queue_consumer_step envFix
        { queue := QItem.tup [PyVal.vint 0, PyVal.vent (Entity.player p1Fix), PyVal.vint 0] :: [],
          ratelimit := rlFix, nosleep := true, now := 0, db := dbFix, fresh := 100 }).state.ratelimit
      = rlFix.set (strKey (Entity.player p1Fix)) 0
    ∧ (rc1Fix.set "Player:1" 30).get "Player:1" 30 = 1
    ∧ ¬ 5 ≤ (rc1Fix.set "Player:1" 30).get "Player:1" 30 :=
  c4_rolling_rate_limit envFix (PyVal.vint 0) (Entity.player p1Fix) (Entity.player p1Fix) 0
    [] [] rl4Fix rlFix rc1Fix 0 0 30 dbFix dbFix 100 100 "Player:1"
    (by decide) (by decide) (by decide) (by decide) (by decide) (by decide) (by decide)

/-- C5: dispatching a create task for a player whose `Dossier` row tracks a
message that still exists in the resolvable configured dossier channel, and
whose `Statistic` row likewise tracks a still-existing message, creates
nothing: the handler returns the falsy sentinel, the database is unchanged
(no second `Dossier` or `Statistic` row), no channel message is sent, and
nothing is enqueued.  Creation is thereby suppressed exactly when a
tracking row points to a still-existing message. -/
theorem c5_create_idempotent (env : Env) (db : DB) (p p1 : Player) (d : Dossier)
    (st : Statistic) (dch sch : Nat) (fresh : Nat)
    (hreq : requery db (Entity.player p) = some (Entity.player p1))
    (hdch : env.config.dossier_channel_id = some dch)
    (hd : db.dossiers.find? (fun x => x.player_id == p1.id) = some d)
    (hch : dch ∈ env.channels)
    (hmsg : (dch, d.message_id) ∈ env.messages)
    (hsch : env.config.statistics_channel_id = some sch)
    (hst : db.statistics.find? (fun x => x.player_id == p1.id) = some st)
    (hch2 : sch ∈ env.channels)
    (hmsg2 : (sch, st.message_id) ∈ env.messages) :
    (_handle_create_task env db (Entity.player p) fresh).result = HResult.ok false
    ∧ (_handle_create_task env db (Entity.player p) fresh).db = db
    ∧ (_handle_create_task env db (Entity.player p) fresh).effects.countP
        (fun eff => eff.isSendMsg) = 0
    ∧ (_handle_create_task env db (Entity.player p) fresh).enq = [] := by
  by_cases hid : p1.id == 0
  · simp [_handle_create_task, createDossierSection, createStatisticsSection,
      hreq, hdch, hd, hch, hmsg, hid, Effect.isSendMsg]
  · simp [_handle_create_task, createDossierSection, createStatisticsSection,
      hreq, hdch, hd, hch, hmsg, hsch, hst, hch2, hmsg2, hid, Effect.isSendMsg]

/-- C5 witness: the witness player already has live dossier and statistics
messages; a create task for them changes nothing, sends nothing and
enqueues nothing. -/
theorem c5_create_idempotent_witness :
    (_handle_create_task envFix dbFix (Entity.player p1Fix) 100).result = HResult.ok false
    ∧ (_handle_create_task envFix dbFix (Entity.player p1Fix) 100).db = dbFix
    ∧ (_handle_create_task envFix dbFix (Entity.player p1Fix) 100).effects.countP
        (fun eff => eff.isSendMsg) = 0
    ∧ (_handle_create_task envFix dbFix (Entity.player p1Fix) 100).enq = [] :=
  c5_create_idempotent envFix dbFix p1Fix p1Fix dosFix statFix 5 6 100
    (by decide) (by decide) (by decide) (by decide) (by decide) (by decide) (by decide)
    (by decide) (by decide)

/-- C6 counterexample: the claim states that an update task for a player
with no `Dossier` row enqueues exactly one create task and "performs no
direct message edit".  For the witness player with no `Dossier` row but a
live `Statistic` message, the handler enqueues the one create task and
nevertheless edits a message directly (the statistics message), refuting
the no-edit part as stated. -/
theorem c6_counterexample :
    (_handle_update_task envFix dbNoDossier (Entity.player p1Fix) 100).enq
      = [QItem.tup [PyVal.vint 0, PyVal.vent (Entity.player p1Fix)]]
    ∧ (_handle_update_task envFix dbNoDossier (Entity.player p1Fix) 100).effects.countP
        (fun eff => eff.isEditMsg) = 1 := by
  refine ⟨rfl, rfl⟩

/-- C6 (amended): dispatching an update task for a player with no `Dossier`
row enqueues exactly one create task for that player and performs no edit
of any dossier message (the statistics projection is handled independently
by the same dispatch and may still be edited); if instead a `Dossier` row
exists, the dossier channel resolves and the tracked message is found, that
message is fetched and edited in place with freshly rendered content. -/
theorem c6_update_self_heals (env : Env) (db : DB) (p p1 : Player) (fresh : Nat)
    (envb : Env) (dbb : DB) (q q1 : Player) (db2 : Dossier) (dchb freshb : Nat)
    (hreq : requery db (Entity.player p) = some (Entity.player p1))
    (hdos : db.dossiers.find? (fun x => x.player_id == p1.id) = none)
    (hreqb : requery dbb (Entity.player q) = some (Entity.player q1))
    (hdosb : dbb.dossiers.find? (fun x => x.player_id == q1.id) = some db2)
    (hcfgb : envb.config.dossier_channel_id = some dchb)
    (hcb : dchb ∈ envb.channels)
    (hmb : (dchb, db2.message_id) ∈ envb.messages) :
    (_handle_update_task env db (Entity.player p) fresh).enq
      = [QItem.tup [PyVal.vint 0, PyVal.vent (Entity.player p1)]]
    ∧ (_handle_update_task env db (Entity.player p) fresh).effects.countP
        (fun eff => eff.isDossierEdit) = 0
    ∧ Effect.editMessage dchb db2.message_id
        (Content.dossierMsg (mentionOf envb q1.discord_id) q1.id "")
      ∈ (_handle_update_task envb dbb (Entity.player q) freshb).effects := by
  have hpair : (_handle_update_task env db (Entity.player p) fresh).enq
      = [QItem.tup [PyVal.vint 0, PyVal.vent (Entity.player p1)]]
    ∧ (_handle_update_task env db (Entity.player p) fresh).effects.countP
        (fun eff => eff.isDossierEdit) = 0 := by
    unfold _handle_update_task updateDossierSection updateStatisticsSection
    rw [hreq]
    simp only [hdos]
    cases hst : db.statistics.find? (fun s => s.player_id == p1.id) with
    | none => simp [Effect.isDossierEdit]
    | some s =>
      cases hcfg : env.config.statistics_channel_id with
      | none => simp [Effect.isDossierEdit]
      | some sch =>
        by_cases hc : sch ∈ env.channels
        · by_cases hm : (sch, s.message_id) ∈ env.messages
          · simp [hc, hm, Effect.isDossierEdit]
          · simp [hc, hm, Effect.isDossierEdit]
        · simp [hc, Effect.isDossierEdit]
  refine ⟨hpair.1, hpair.2, ?_⟩
  simp [_handle_update_task, updateDossierSection, hreqb, hdosb, hcfgb, hcb, hmb]

/-- C6 witness for the amended claim: over the witness fixtures without a
dossier row, exactly one create task is enqueued and no dossier message is
edited; over the full witness fixtures the tracked dossier message is
edited in place. -/
theorem c6_update_self_heals_witness :
    (_handle_update_task envFix dbNoDossier (Entity.player p1Fix) 100).enq
      = [QItem.tup [PyVal.vint 0, PyVal.vent (Entity.player p1Fix)]]
    ∧ (_handle_update_task envFix dbNoDossier (Entity.player p1Fix) 100).effects.countP
        (fun eff => eff.isDossierEdit) = 0
    ∧ Effect.editMessage 5 50 (Content.dossierMsg (mentionOf envFix 10) 1 "")
      ∈ (_handle_update_task envFix dbFix (Entity.player p1Fix) 100).effects :=
  c6_update_self_heals envFix dbNoDossier p1Fix p1Fix 100 envFix dbFix p1Fix p1Fix dosFix 5 100
    (by decide) (by decide) (by decide) (by decide) (by decide) (by decide) (by decide)

/-- C7: dispatching a create or an update task for a unit sends no message
for the unit — the full outcome is an unchanged database, one debug log,
and exactly one update task enqueued for the owning player, which carries
the implicit fail count 0; the same single-enqueue rule holds for
`PlayerUpgrade` subjects resolved through their unit to the player, for
both the create and the update handler. -/
theorem c7_unit_cascade_single_update
    (enva envb envc envd : Env) (dba dbb dbc dbd : DB)
    (u v : Unit) (u1 v1 un un2 : Unit) (g g1 g2 g3 : PlayerUpgrade)
    (pl plb plc pld : Player) (fresha freshb freshc freshd : Nat)
    (hru : requery dba (Entity.unit u) = some (Entity.unit u1))
    (hpl : dba.players.find? (fun q => q.id == u1.player_id) = some pl)
    (hru2 : requery dbb (Entity.unit v) = some (Entity.unit v1))
    (hpl2 : dbb.players.find? (fun q => q.id == v1.player_id) = some plb)
    (hrg : requery dbc (Entity.upgrade g) = some (Entity.upgrade g1))
    (hun : dbc.units.find? (fun q => q.id == g1.unit_id) = some un)
    (hpl3 : dbc.players.find? (fun q => q.id == un.player_id) = some plc)
    (hrg2 : requery dbd (Entity.upgrade g2) = some (Entity.upgrade g3))
    (hun2 : dbd.units.find? (fun q => q.id == g2.unit_id) = some un2)
    (hpl4 : dbd.players.find? (fun q => q.id == un2.player_id) = some pld) :
    _handle_create_task enva dba (Entity.unit u) fresha =
      { result := HResult.ok false, db := dba,
        effects := [Effect.log LogLevel.debug "Queued update task for player due to unit"],
        enq := [QItem.tup [PyVal.vint 1, PyVal.vent (Entity.player pl)]], fresh := fresha }
    ∧ _handle_update_task envb dbb (Entity.unit v) freshb =
      { result := HResult.ok false, db := dbb,
        effects := [Effect.log LogLevel.debug "Queued update task for player due to unit"],
        enq := [QItem.tup [PyVal.vint 1, PyVal.vent (Entity.player plb)]], fresh := freshb }
    ∧ _handle_create_task envc dbc (Entity.upgrade g) freshc =
      { result := HResult.ok false, db := dbc,
        effects := [Effect.log LogLevel.debug "Queued update task for player due to upgrade"],
        enq := [QItem.tup [PyVal.vint 1, PyVal.vent (Entity.player plc)]], fresh := freshc }
    ∧ _handle_update_task envd dbd (Entity.upgrade g2) freshd =
      { result := HResult.ok false, db := dbd,
        effects := [Effect.log LogLevel.debug "Queued update task for player due to upgrade"],
        enq := [QItem.tup [PyVal.vint 1, PyVal.vent (Entity.player pld)]], fresh := freshd }
    ∧ failCountOfItem (QItem.tup [PyVal.vint 1, PyVal.vent (Entity.player pl)])
      = some (PyVal.vint 0) := by
  refine ⟨?_, ?_, ?_, ?_, rfl⟩
  · simp only [_handle_create_task, hru, hpl]
  · simp only [_handle_update_task, hru2, hpl2]
  · simp only [_handle_create_task, hrg, hun, hpl3]
  · simp only [_handle_update_task, hrg2, hun2, hpl4]

/-- C7 witness: over the witness fixtures, create and update tasks for the
witness unit, and create and update tasks for the witness upgrade, each
enqueue exactly the single `(1, player)` task for the owning player, whose
implicit fail count is 0, with no message sent. -/
theorem c7_unit_cascade_single_update_witness :
    _handle_create_task envFix dbFix (Entity.unit u2Fix) 100 =
      { result := HResult.ok false, db := dbFix,
        effects := [Effect.log LogLevel.debug "Queued update task for player due to unit"],
        enq := [QItem.tup [PyVal.vint 1, PyVal.vent (Entity.player p1Fix)]], fresh := 100 }
    ∧ _handle_update_task envFix dbFix (Entity.unit u2Fix) 100 =
      { result := HResult.ok false, db := dbFix,
        effects := [Effect.log LogLevel.debug "Queued update task for player due to unit"],
        enq := [QItem.tup [PyVal.vint 1, PyVal.vent (Entity.player p1Fix)]], fresh := 100 }
    ∧ _handle_create_task envFix dbFix (Entity.upgrade g3Fix) 100 =
      { result := HResult.ok false, db := dbFix,
        effects := [Effect.log LogLevel.debug "Queued update task for player due to upgrade"],
        enq := [QItem.tup [PyVal.vint 1, PyVal.vent (Entity.player p1Fix)]], fresh := 100 }
    ∧ _handle_update_task envFix dbFix (Entity.upgrade g3Fix) 100 =
      { result := HResult.ok false, db := dbFix,
        effects := [Effect.log LogLevel.debug "Queued update task for player due to upgrade"],
        enq := [QItem.tup [PyVal.vint 1, PyVal.vent (Entity.player p1Fix)]], fresh := 100 }
    ∧ failCountOfItem (QItem.tup [PyVal.vint 1, PyVal.vent (Entity.player p1Fix)])
      = some (PyVal.vint 0) :=
  c7_unit_cascade_single_update envFix envFix envFix envFix dbFix dbFix dbFix dbFix
    u2Fix u2Fix u2Fix u2Fix u2Fix u2Fix g3Fix g3Fix g3Fix g3Fix p1Fix p1Fix p1Fix p1Fix
    100 100 100 100
    (by decide) (by decide) (by decide) (by decide) (by decide) (by decide) (by decide)
    (by decide) (by decide) (by decide)

/-- C9 counterexample: the claim states that in every delete branch where a
live instance was found, the instance is detached from the session
afterward.  For a delete task whose `Dossier` instance is found live but
whose tracked message was deleted out-of-band, the handler raises at the
message access before reaching the trailing `session.expunge`, so the found
instance is never detached — refuting the universal detach clause as
stated. -/
theorem c9_counterexample :
    requery dbFix (Entity.dossier dosFix) = some (Entity.dossier dosFix)
    ∧ (_handle_delete_task envNoMsgs dbFix (Entity.dossier dosFix) 100).result
      = HResult.err Exn.attributeError
    ∧ (_handle_delete_task envNoMsgs dbFix (Entity.dossier dosFix) 100).effects.countP
        (fun eff => eff.isExpunge) = 0 :=
  ⟨rfl, rfl, rfl⟩

/-- C9 (amended): processing a delete task whose re-queried subject is a
`Unit` detaches the instance from the persistence session and enqueues no
cascading player update — the handler outcome is exactly the debug log and
the expunge, with the database unchanged and nothing enqueued; and in
every delete branch that finds a live instance and completes without an
exception, the instance is detached afterward (when the handler raises —
for example on a missing tracked message — the trailing expunge is
skipped, as the counterexample shows). -/
theorem c9_delete_unit_detaches (env envb : Env) (db dbb : DB) (u u1 : Unit)
    (subject i : Entity) (fresh freshb : Nat) (b : Bool)
    (hru : requery db (Entity.unit u) = some (Entity.unit u1))
    (hreq : requery dbb subject = some i)
    (hok : (_handle_delete_task envb dbb subject freshb).result = HResult.ok b) :
    _handle_delete_task env db (Entity.unit u) fresh =
      { result := HResult.ok false, db := db,
        effects := [Effect.log LogLevel.debug "instance is a unit, expunging",
                    Effect.expunge (Entity.unit u1)],
        enq := [], fresh := fresh }
    ∧ Effect.expunge i ∈ (_handle_delete_task envb dbb subject freshb).effects := by
  constructor
  · simp only [_handle_delete_task, hru]
  · cases i with
    | dossier d =>
      cases hcfg : envb.config.dossier_channel_id with
      | none => simp [_handle_delete_task, hreq, hcfg] at hok
      | some dch =>
        by_cases hc : dch ∈ envb.channels
        · by_cases hm : (dch, d.message_id) ∈ envb.messages
          · simp [_handle_delete_task, hreq, hcfg, hc, hm]
          · simp [_handle_delete_task, hreq, hcfg, hc, hm] at hok
        · simp [_handle_delete_task, hreq, hcfg, hc]
    | statistic s =>
      cases hcfg : envb.config.statistics_channel_id with
      | none => simp [_handle_delete_task, hreq, hcfg] at hok
      | some sch =>
        by_cases hc : sch ∈ envb.channels
        · by_cases hm : (sch, s.message_id) ∈ envb.messages
          · simp [_handle_delete_task, hreq, hcfg, hc, hm]
          · simp [_handle_delete_task, hreq, hcfg, hc, hm] at hok
        · simp [_handle_delete_task, hreq, hcfg, hc]
    | unit w => simp [_handle_delete_task, hreq]
    | upgrade g =>
      cases hun : dbb.units.find? (fun q => q.id == g.unit_id) with
      | none => simp [_handle_delete_task, hreq, hun] at hok
      | some un =>
        cases hpl : dbb.players.find? (fun q => q.id == un.player_id) with
        | none => simp [_handle_delete_task, hreq, hun, hpl]
        | some pl => simp [_handle_delete_task, hreq, hun, hpl]
    | player pp => simp [_handle_delete_task, hreq]

/-- C9 witness for the amended claim: deleting the witness unit expunges it
with no enqueue, and the delete of the witness dossier (whose message still
exists) completes and contains the expunge of the found instance. -/
theorem c9_delete_unit_detaches_witness :
    _handle_delete_task envFix dbFix (Entity.unit u2Fix) 100 =
      { result := HResult.ok false, db := dbFix,
        effects := [Effect.log LogLevel.debug "instance is a unit, expunging",
                    Effect.expunge (Entity.unit u2Fix)],
        enq := [], fresh := 100 }
    ∧ Effect.expunge (Entity.dossier dosFix)
      ∈ (_handle_delete_task envFix dbFix (Entity.dossier dosFix) 100).effects :=
  c9_delete_unit_detaches envFix envFix dbFix dbFix u2Fix u2Fix
    (Entity.dossier dosFix) (Entity.dossier dosFix) 100 100 false
    (by decide) (by decide) (by decide)

/-- Any dossier-template edit emitted by the dossier section of the update
handler carries the empty medal block. -/
theorem updateDossierSection_medals (env : Env) (db : DB) (pl : Player) (r : Bool)
    (ch mid : Nat) (men : String) (pid : Nat) (meds : String)
    (hmem : Effect.editMessage ch mid (Content.dossierMsg men pid meds)
      ∈ (updateDossierSection env db pl r).fst.effects) :
    meds = "" := by
  unfold updateDossierSection at hmem
  cases hfind : db.dossiers.find? (fun d => d.player_id == pl.id) with
  | none =>
    rw [hfind] at hmem
    by_cases hr : r <;> simp [hr] at hmem
  | some d =>
    rw [hfind] at hmem
    cases hcfg : env.config.dossier_channel_id with
    | none => simp [hcfg] at hmem
    | some dch =>
      rw [hcfg] at hmem
      by_cases hc : dch ∈ env.channels
      · by_cases hm : (dch, d.message_id) ∈ env.messages
        · simp [hc, hm] at hmem
          tauto
        · simp [hc, hm] at hmem
      · simp [hc] at hmem

/-- The statistics section of the update handler never emits a
dossier-template edit. -/
theorem updateStatisticsSection_no_dossier_edit (env : Env) (db : DB) (pl : Player)
    (r : Bool) (ch mid : Nat) (men : String) (pid : Nat) (meds : String)
    (hmem : Effect.editMessage ch mid (Content.dossierMsg men pid meds)
      ∈ (updateStatisticsSection env db pl r).fst.effects) :
    False := by
  unfold updateStatisticsSection at hmem
  cases hfind : db.statistics.find? (fun s => s.player_id == pl.id) with
  | none =>
    rw [hfind] at hmem
    by_cases hr : r <;> simp [hr] at hmem
  | some s =>
    rw [hfind] at hmem
    cases hcfg : env.config.statistics_channel_id with
    | none => simp [hcfg] at hmem
    | some sch =>
      rw [hcfg] at hmem
      by_cases hc : sch ∈ env.channels
      · by_cases hm : (sch, s.message_id) ∈ env.messages
        · simp [hc, hm] at hmem
        · simp [hc, hm] at hmem
      · simp [hc] at hmem

/-- C10: for an update task on a player with a `Dossier` row, a resolvable
configured dossier channel and a still-existing tracked message, the
tracked message is edited with content rendered with an empty medal block
(`medals=""`); moreover every dossier-template edit the update handler can
ever emit — over all environments, databases and subjects — carries
`medals=""`, so the medal display is only ever rendered by the create
path and a successful player update removes the medals from the dossier
message rather than re-rendering them. -/
theorem c10_update_edits_dossier_with_empty_medals (env : Env) (db : DB) (p p1 : Player)
    (d : Dossier) (dch : Nat) (fresh : Nat)
    (hreq : requery db (Entity.player p) = some (Entity.player p1))
    (hd : db.dossiers.find? (fun x => x.player_id == p1.id) = some d)
    (hcfg : env.config.dossier_channel_id = some dch)
    (hc : dch ∈ env.channels)
    (hm : (dch, d.message_id) ∈ env.messages) :
    Effect.editMessage dch d.message_id
        (Content.dossierMsg (mentionOf env p1.discord_id) p1.id "")
      ∈ (_handle_update_task env db (Entity.player p) fresh).effects
    ∧ ∀ (envb : Env) (dbb : DB) (subj : Entity) (freshb : Nat) (ch mid : Nat)
        (men : String) (pid : Nat) (meds : String),
        Effect.editMessage ch mid (Content.dossierMsg men pid meds)
          ∈ (_handle_update_task envb dbb subj freshb).effects → meds = "" := by
  constructor
  · simp [_handle_update_task, updateDossierSection, hreq, hd, hcfg, hc, hm]
  · intro envb dbb subj freshb ch mid men pid meds hmem
    unfold _handle_update_task at hmem
    cases hr : requery dbb subj with
    | none =>
      rw [hr] at hmem
      cases subj with
      | upgrade g =>
        cases hun : dbb.units.find? (fun q => q.id == g.unit_id) with
        | none => simp [hun] at hmem
        | some un =>
          cases hpl : dbb.players.find? (fun q => q.id == un.player_id) with
          | none => simp [hun, hpl] at hmem
          | some pl => simp [hun, hpl] at hmem
      | player pp => simp at hmem
      | unit w => simp at hmem
      | dossier dd => simp at hmem
      | statistic ss => simp at hmem
    | some i =>
      rw [hr] at hmem
      cases i with
      | player pl =>
        simp only [] at hmem
        cases hflow : (updateDossierSection envb dbb pl false).fst.flow with
        | raised e2 =>
          rw [hflow] at hmem
          simp at hmem
          exact updateDossierSection_medals envb dbb pl false ch mid men pid meds hmem
        | proceed =>
          rw [hflow] at hmem
          simp at hmem
          rcases hmem with h1 | h2
          · exact updateDossierSection_medals envb dbb pl false ch mid men pid meds h1
          · exact (updateStatisticsSection_no_dossier_edit envb dbb pl
              (updateDossierSection envb dbb pl false).snd ch mid men pid meds h2).elim
        | earlyReturn =>
          rw [hflow] at hmem
          simp at hmem
          rcases hmem with h1 | h2
          · exact updateDossierSection_medals envb dbb pl false ch mid men pid meds h1
          · exact (updateStatisticsSection_no_dossier_edit envb dbb pl
              (updateDossierSection envb dbb pl false).snd ch mid men pid meds h2).elim
      | unit w =>
        cases hpl : dbb.players.find? (fun q => q.id == w.player_id) with
        | none => simp [hpl] at hmem
        | some pl => simp [hpl] at hmem
      | dossier dd =>
        cases subj with
        | upgrade g =>
          cases hun : dbb.units.find? (fun q => q.id == g.unit_id) with
          | none => simp [hun] at hmem
          | some un =>
            cases hpl : dbb.players.find? (fun q => q.id == un.player_id) with
            | none => simp [hun, hpl] at hmem
            | some pl => simp [hun, hpl] at hmem
        | player pp => simp at hmem
        | unit w => simp at hmem
        | dossier dd2 => simp at hmem
        | statistic ss => simp at hmem
      | statistic st =>
        cases subj with
        | upgrade g =>
          cases hun : dbb.units.find? (fun q => q.id == g.unit_id) with
          | none => simp [hun] at hmem
          | some un =>
            cases hpl : dbb.players.find? (fun q => q.id == un.player_id) with
            | none => simp [hun, hpl] at hmem
            | some pl => simp [hun, hpl] at hmem
        | player pp => simp at hmem
        | unit w => simp at hmem
        | dossier dd2 => simp at hmem
        | statistic ss => simp at hmem
      | upgrade g1 =>
        cases subj with
        | upgrade g =>
          cases hun : dbb.units.find? (fun q => q.id == g.unit_id) with
          | none => simp [hun] at hmem
          | some un =>
            cases hpl : dbb.players.find? (fun q => q.id == un.player_id) with
            | none => simp [hun, hpl] at hmem
            | some pl => simp [hun, hpl] at hmem
        | player pp => simp at hmem
        | unit w => simp at hmem
        | dossier dd2 => simp at hmem
        | statistic ss => simp at hmem

/-- C10 witness: over the witness fixtures, the update of the witness
player edits the tracked dossier message with the empty medal block, and
the universal empty-medals clause is instantiated by the same theorem. -/
theorem c10_update_edits_dossier_with_empty_medals_witness :
    Effect.editMessage 5 50 (Content.dossierMsg (mentionOf envFix 10) 1 "")
      ∈ (_handle_update_task envFix dbFix (Entity.player p1Fix) 100).effects
    ∧ ∀ (envb : Env) (dbb : DB) (subj : Entity) (freshb : Nat) (ch mid : Nat)
        (men : String) (pid : Nat) (meds : String),
        Effect.editMessage ch mid (Content.dossierMsg men pid meds)
          ∈ (_handle_update_task envb dbb subj freshb).effects → meds = "" :=
  c10_update_edits_dossier_with_empty_medals envFix dbFix p1Fix p1Fix dosFix 5 100
    (by decide) (by decide) (by decide) (by decide) (by decide)

end ArmcoBot
